import Mathlib

/-!
Shallow embedding of the request-orchestration and rate-limited-access layer
of the `ai_fakenews_detector` repository.

Covered source:
* the analyze route handler (Express POST handler: URL extraction, length
  validation, `Promise.allSettled` fan-out to prediction / sentiment /
  explanation collaborators, fall-back assembly of the result);
* the trending route handler (single-slot `node-cache`, global rate-limiter
  state `lastRequestTime` / `dailyRequests` / `lastResetDate`, GNews fetch and
  result assembly).

Modelling conventions:
* an `await`ed axios call is represented by its settled outcome
  (`Settled`): `fulfilled` with the parsed response body, or `rejected`
  covering transport failure, non-2xx status and timeout alike, exactly as a
  rejected promise in the source;
* JavaScript truthiness of the response fields that the source tests with
  `||` / `&&` is modelled explicitly: a missing field is `none`, an empty
  string and the number 0 are falsy;
* wall-clock instants are `Nat` milliseconds (`Date.now()`), calendar days
  are an abstract `Nat` identifier (`new Date().toDateString()` equality);
* numbers carried by response bodies are rationals (no arithmetic is
  performed on them by the source, they are only passed through).
-/

namespace FakeNews

/-- Settled outcome of one `await`ed collaborator call, as observed after
`Promise.allSettled` (or a `try`/`catch` around a single `await`): the
fulfilled response body, or a rejection (transport error, non-2xx, timeout). -/
inductive Settled (α : Type) where
  | fulfilled (data : α)
  | rejected
deriving DecidableEq, Repr

/-- Sentiment payload `{label, score}`. -/
structure Sentiment where
  label : String
  score : ℚ
deriving DecidableEq, Repr

/-- Explanation payload `{keywords, importance_scores}`. -/
structure Explanation where
  keywords : List String
  importance_scores : List ℚ
deriving DecidableEq, Repr

/-- Body of a fulfilled prediction response.  The source reads
`data.prediction` and `data.confidence` without guarding, applying `||`
defaults, so both fields are optional. -/
structure PredictionBody where
  prediction : Option String
  confidence : Option ℚ
deriving DecidableEq, Repr

/-- The request body `{ text, is_url }` of the analyze route. -/
structure AnalyzeRequest where
  text : String
  is_url : Bool
deriving DecidableEq, Repr

/-- Outcomes of the four collaborator calls the analyze handler can issue.
`extractOutcome` carries `data` (outer `Option`: `data` truthy) and
`data.text` (inner `Option String`); sentiment and explanation carry
`data` and their `data.sentiment` / `data.explanation` field, matching the
`&&`-guard chains in the source.  Prediction `data` is read unguarded. -/
structure AnalyzeDeps where
  extractOutcome : Settled (Option (Option String))
  predictionOutcome : Settled PredictionBody
  sentimentOutcome : Settled (Option (Option Sentiment))
  explanationOutcome : Settled (Option (Option Explanation))
deriving DecidableEq, Repr

/-- Error responses of the analyze handler: 400 missing text, 400 extraction
(both the rejected-call and the empty-text branch), 400 too short,
503 prediction unavailable. -/
inductive AnalyzeError where
  | missingText
  | extractionError
  | validationError
  | upstreamUnavailable
deriving DecidableEq, Repr

/-- The JSON result assembled by the analyze handler. -/
structure AnalysisResult where
  prediction : String
  confidence : ℚ
  sentiment : Sentiment
  explanation : Explanation
  article_text : String
  timestamp : String
deriving DecidableEq, Repr

/-- Tags for the outbound collaborator calls the analyze handler issues. -/
inductive CallTag where
  | extraction
  | predictionCall
  | sentimentCall
  | explanationCall
deriving DecidableEq, Repr

/-- JavaScript `v || dflt` on an optional string field: `none` and the empty
string are falsy. -/
def jsOrString (v : Option String) (dflt : String) : String :=
  match v with
  | some s => if s = "" then dflt else s
  | none => dflt

/-- JavaScript `v || dflt` on an optional numeric field: `none` and 0 are
falsy. -/
def jsOrRat (v : Option ℚ) (dflt : ℚ) : ℚ :=
  match v with
  | some c => if c = 0 then dflt else c
  | none => dflt

/-- JavaScript `v || dflt` on an optional numeric field holding a count. -/
def jsOrNat (v : Option Nat) (dflt : Nat) : Nat :=
  match v with
  | some n => if n = 0 then dflt else n
  | none => dflt

/-- Text resolution of the analyze handler: reject empty `text`
(`if (!text)`); when `is_url`, take `data.text` from the extraction call if
the call fulfilled with truthy `data` and truthy `data.text`, else fail with
the extraction error; otherwise the input text itself. -/
def resolveText (req : AnalyzeRequest) (deps : AnalyzeDeps) :
    Except AnalyzeError String :=
  if req.text = "" then
    .error .missingText
  else if req.is_url then
    match deps.extractOutcome with
    | .rejected => .error .extractionError
    | .fulfilled d =>
      match d with
      | some (some t) => if t = "" then .error .extractionError else .ok t
      | _ => .error .extractionError
  else
    .ok req.text

/-- Result assembly of the analyze handler (the `const result = {...}`
object): `||` defaults on prediction fields, `&&`-guarded fall-backs for
sentiment and explanation, stored text truncated by `substring(0, 2000)`. -/
def assembleResult (pdata : PredictionBody) (deps : AnalyzeDeps)
    (articleText : String) (nowIso : String) : AnalysisResult :=
  { prediction := jsOrString pdata.prediction "unknown"
    confidence := jsOrRat pdata.confidence (1 / 2)
    sentiment :=
      match deps.sentimentOutcome with
      | .fulfilled (some (some s)) => s
      | _ => { label := "neutral", score := 1 / 2 }
    explanation :=
      match deps.explanationOutcome with
      | .fulfilled (some (some e)) => e
      | _ => { keywords := [], importance_scores := [] }
    article_text := articleText.take 2000
    timestamp := nowIso }

/-- Collaborator calls issued before `resolveText` failed: the extraction
call has been made exactly when the failure is the extraction error (an
empty `text` aborts before any call). -/
def errCalls : AnalyzeError → List CallTag
  | .extractionError => [CallTag.extraction]
  | _ => []

/-- Response of the analyze handler, together with the list of collaborator
calls it issued. -/
structure AnalyzeOutput where
  response : Except AnalyzeError AnalysisResult
  calls : List CallTag
deriving Repr

/-- The analyze route handler: resolve the text (possibly through the
extraction collaborator), validate the 50-character minimum, fan out the
three analysis calls with `Promise.allSettled`, fail with 503 when the
prediction call rejected, otherwise assemble the result. -/
def analyze (req : AnalyzeRequest) (deps : AnalyzeDeps) (nowIso : String) :
    AnalyzeOutput :=
  match resolveText req deps with
  | .error e => { response := .error e, calls := errCalls e }
  | .ok articleText =>
    let preCalls : List CallTag := if req.is_url then [CallTag.extraction] else []
    if articleText.length < 50 then
      { response := .error .validationError, calls := preCalls }
    else
      let allCalls := preCalls ++
        [CallTag.predictionCall, CallTag.sentimentCall, CallTag.explanationCall]
      match deps.predictionOutcome with
      | .rejected => { response := .error .upstreamUnavailable, calls := allCalls }
      | .fulfilled pdata =>
        { response := .ok (assembleResult pdata deps articleText nowIso)
          calls := allCalls }

/-! ## Trending route (rate limiter, single-slot cache, GNews fetch) -/

/-- The process-wide rate-limiting state of the trending route: the module
globals `lastRequestTime` (`Date.now()` milliseconds), `dailyRequests`, and
`lastResetDate` (a calendar-day identifier, compared for equality like
`toDateString()` strings). -/
structure RLState where
  lastRequestTime : Nat
  dailyRequests : Nat
  lastResetDate : Nat
deriving DecidableEq, Repr

/-- The two ways `checkRateLimit` throws: the daily quota gate and the
1000 ms pacing gate. -/
inductive RateLimitError where
  | dailyQuotaExceeded
  | tooFrequent
deriving DecidableEq, Repr

/-- `checkRateLimit` of the trending route: lazily reset the daily counter
when the stored day differs from today, then test `dailyRequests >= limit`,
then test `now - lastRequestTime < 1000`.  The reset mutates the globals
even when a gate subsequently throws, so the (possibly reset) state is
returned alongside the outcome. -/
def checkRateLimit (limit : Nat) (today : Nat) (now : Nat) (st : RLState) :
    RLState × Option RateLimitError :=
  let st1 := if st.lastResetDate ≠ today then
      { st with dailyRequests := 0, lastResetDate := today }
    else st
  if st1.dailyRequests ≥ limit then (st1, some .dailyQuotaExceeded)
  else if now - st1.lastRequestTime < 1000 then (st1, some .tooFrequent)
  else (st1, none)

/-- `checkRateLimit` followed by the consumption step of the route handler
(`lastRequestTime = Date.now(); dailyRequests++`), executed only when both
gates pass. -/
def checkAndConsume (limit : Nat) (today : Nat) (now : Nat) (st : RLState) :
    RLState × Option RateLimitError :=
  match checkRateLimit limit today now st with
  | (st1, some e) => (st1, some e)
  | (st1, none) =>
    ({ st1 with lastRequestTime := now, dailyRequests := st1.dailyRequests + 1 },
      none)

/-- Source field `{name, url}` of a trending article. -/
structure ArticleSource where
  name : String
  url : String
deriving DecidableEq, Repr

/-- One trending article as the route returns it. -/
structure Article where
  title : String
  description : String
  url : String
  image : String
  publishedAt : String
  source : ArticleSource
deriving DecidableEq, Repr

/-- Body of a fulfilled GNews response; the source tests
`!response.data || !response.data.articles` and
`totalArticles || articles.length`, so both fields are optional. -/
structure GNewsBody where
  articles : Option (List Article)
  totalArticles : Option Nat
deriving DecidableEq, Repr

/-- The per-article transform of the trending handler (a field-wise copy
into the shape served to the frontend). -/
def transformArticle (a : Article) : Article :=
  { title := a.title
    description := a.description
    url := a.url
    image := a.image
    publishedAt := a.publishedAt
    source := { name := a.source.name, url := a.source.url } }

/-- The JSON result of a successful trending fetch.  `remainingRequests` is
`Math.max(0, limit - dailyRequests)`, an integer computed after the
consumption step. -/
structure FeedResult where
  articles : List Article
  totalResults : Nat
  timestamp : String
  remainingRequests : Int
deriving DecidableEq, Repr

/-- The single `node-cache` slot keyed `trending-news`.

Modelled from the spec: the cache library is an external dependency, not in
`src/`; per the spec a `CacheEntry` is `{value, expiresAt}`, created by
`set(value, ttl)` and read-checked so that `get` returns the value strictly
before `expiresAt` and nothing once `now ≥ expiresAt`. -/
structure CacheEntry where
  value : FeedResult
  expiresAt : Nat
deriving DecidableEq, Repr

/-- Modelled from the spec: `cache.get('trending-news')` — the stored value
while `now < expiresAt`, `none` on an empty slot or once the TTL has
elapsed. -/
def cacheGet (now : Nat) (slot : Option CacheEntry) : Option FeedResult :=
  match slot with
  | none => none
  | some e => if now < e.expiresAt then some e.value else none

/-- Modelled from the spec: `cache.set('trending-news', v)` with the
configured `stdTTL` in seconds — overwrite the single slot with expiry
`now + ttl` seconds. -/
def cacheSet (now : Nat) (ttl : Nat) (v : FeedResult) : Option CacheEntry :=
  some { value := v, expiresAt := now + ttl * 1000 }

/-- How the single `await`ed GNews call can reject, as far as the handler's
`catch` distinguishes (`error.response?.status`): provider 429, provider
401, anything else (transport error, timeout, other status). -/
inductive UpstreamFailure where
  | http429
  | http401
  | transport
deriving DecidableEq, Repr

/-- Error responses of the trending handler: 503 unconfigured key,
429 local rate limit (with `retryAfter: 3600`), 429 provider quota,
503 invalid key, 500 generic failure (transport errors and the
`Invalid response from GNews API` throw alike). -/
inductive FeedError where
  | apiKeyMissing
  | rateLimited (e : RateLimitError)
  | gnewsRateLimited
  | invalidApiKey
  | fetchFailed
deriving DecidableEq, Repr

/-- Settled outcome of the single GNews call: the parsed body (`data`
optional, as the handler tests `!response.data`), or a rejection carrying
what the `catch` can distinguish. -/
inductive GNewsOutcome where
  | fulfilled (data : Option GNewsBody)
  | rejected (f : UpstreamFailure)
deriving DecidableEq, Repr

/-- The mutable state the trending route touches: the cache slot and the
rate-limiter globals. -/
structure TrendingState where
  cache : Option CacheEntry
  rl : RLState
deriving DecidableEq, Repr

/-- Response of the trending handler together with the updated state and
whether the upstream GNews call was issued. -/
structure TrendingOutput where
  state : TrendingState
  response : Except FeedError FeedResult
  upstreamCalled : Bool
deriving Repr

/-- The trending route handler: serve from cache when the slot is fresh;
otherwise require the API key, pass the rate limiter (consuming quota), call
GNews, validate `data.articles`, transform the articles, assemble the result
with `remainingRequests = max 0 (limit - dailyRequests)`, and cache it for
1800 seconds. -/
def fetchTrending (limit : Nat) (today : Nat) (now : Nat) (nowIso : String)
    (apiKeyConfigured : Bool) (upstream : GNewsOutcome)
    (st : TrendingState) : TrendingOutput :=
  match cacheGet now st.cache with
  | some v => { state := st, response := .ok v, upstreamCalled := false }
  | none =>
    if apiKeyConfigured = false then
      { state := st, response := .error .apiKeyMissing, upstreamCalled := false }
    else
      match checkAndConsume limit today now st.rl with
      | (rl1, some e) =>
        { state := { st with rl := rl1 }
          response := .error (.rateLimited e)
          upstreamCalled := false }
      | (rl1, none) =>
        let st1 : TrendingState := { st with rl := rl1 }
        match upstream with
        | .rejected .http429 =>
          { state := st1, response := .error .gnewsRateLimited, upstreamCalled := true }
        | .rejected .http401 =>
          { state := st1, response := .error .invalidApiKey, upstreamCalled := true }
        | .rejected .transport =>
          { state := st1, response := .error .fetchFailed, upstreamCalled := true }
        | .fulfilled none =>
          { state := st1, response := .error .fetchFailed, upstreamCalled := true }
        | .fulfilled (some body) =>
          match body.articles with
          | none =>
            { state := st1, response := .error .fetchFailed, upstreamCalled := true }
          | some rawArticles =>
            let articles := rawArticles.map transformArticle
            let result : FeedResult :=
              { articles := articles
                totalResults := jsOrNat body.totalArticles articles.length
                timestamp := nowIso
                remainingRequests := max 0 ((limit : Int) - (rl1.dailyRequests : Int)) }
            { state := { cache := cacheSet now 1800 result, rl := rl1 }
              response := .ok result
              upstreamCalled := true }

/-- The rate-limiter globals as initialised at module load on day `d`
(`lastRequestTime = 0`, `dailyRequests = 0`, `lastResetDate` = the current
day): the state at the start of a fresh calendar day with no calls yet. -/
def freshState (d : Nat) : RLState :=
  { lastRequestTime := 0, dailyRequests := 0, lastResetDate := d }

/-- State of the rate limiter after the first `k` consumption attempts of
day `d`, the `i`-th attempt made at instant `times i`. -/
def runConsume (limit : Nat) (d : Nat) (times : Nat → Nat) : Nat → RLState
  | 0 => freshState d
  | k + 1 => (checkAndConsume limit d (times k) (runConsume limit d times k)).1

/-- Outcome of the `(k+1)`-th consumption attempt of day `d`. -/
def consumeResult (limit : Nat) (d : Nat) (times : Nat → Nat) (k : Nat) :
    Option RateLimitError :=
  (checkAndConsume limit d (times k) (runConsume limit d times k)).2

/-! ## Concrete fixtures for the closed instantiations -/

/-- A pasted article text of 78 characters. -/
def sampleText : String :=
  "The quick brown fox jumps over the lazy dog near the riverbank every morning."

/-- A non-empty text of fewer than 50 characters. -/
def shortText : String := "Too short to analyze."

def sampleReq : AnalyzeRequest := { text := sampleText, is_url := false }

def shortReq : AnalyzeRequest := { text := shortText, is_url := false }

def urlReq : AnalyzeRequest :=
  { text := "https://example.com/article", is_url := true }

def okSentiment : Sentiment := { label := "positive", score := 3 / 5 }

def okExplanation : Explanation :=
  { keywords := ["economy", "report"], importance_scores := [1 / 2, 1 / 4] }

def okPredBody : PredictionBody :=
  { prediction := some "real", confidence := some (87 / 100) }

/-- Prediction call rejected, secondary calls fulfilled. -/
def predRejectedDeps : AnalyzeDeps :=
  { extractOutcome := .rejected
    predictionOutcome := .rejected
    sentimentOutcome := .fulfilled (some (some okSentiment))
    explanationOutcome := .fulfilled (some (some okExplanation)) }

/-- Prediction fulfilled, both secondary calls rejected. -/
def degradedDeps : AnalyzeDeps :=
  { extractOutcome := .rejected
    predictionOutcome := .fulfilled okPredBody
    sentimentOutcome := .rejected
    explanationOutcome := .rejected }

/-- Prediction fulfilled; the secondary calls fulfilled but with the
expected field missing (`data.sentiment` absent, `data` falsy). -/
def fulfilledEmptyDeps : AnalyzeDeps :=
  { extractOutcome := .rejected
    predictionOutcome := .fulfilled okPredBody
    sentimentOutcome := .fulfilled (some none)
    explanationOutcome := .fulfilled none }

/-- All three analysis calls fulfilled with well-formed bodies. -/
def allOkDeps : AnalyzeDeps :=
  { extractOutcome := .rejected
    predictionOutcome := .fulfilled okPredBody
    sentimentOutcome := .fulfilled (some (some okSentiment))
    explanationOutcome := .fulfilled (some (some okExplanation)) }

/-- Prediction fulfilled with a malformed body: no `prediction` field and a
`confidence` of 2, outside `[0, 1]`. -/
def malformedPredDeps : AnalyzeDeps :=
  { extractOutcome := .rejected
    predictionOutcome := .fulfilled { prediction := none, confidence := some 2 }
    sentimentOutcome := .rejected
    explanationOutcome := .rejected }

/-- The result the analyze handler assembles for `sampleReq` under
`allOkDeps`. -/
def sampleResult : AnalysisResult :=
  assembleResult okPredBody allOkDeps sampleText "2024-01-01T00:00:00Z"

/-- A normalized feed result as the trending route caches it. -/
def sampleFeed : FeedResult :=
  { articles := [], totalResults := 20, timestamp := "2024-01-01T00:00:00Z",
    remainingRequests := 99 }

/-- Trending state holding a fresh cache entry for `sampleFeed`. -/
def cachedState : TrendingState :=
  { cache := some { value := sampleFeed, expiresAt := 1800000 }
    rl := freshState 0 }

/-- Trending state at process start on day 0: empty cache, fresh limiter. -/
def startTrendingState : TrendingState :=
  { cache := none, rl := freshState 0 }

/-- A well-formed GNews body. -/
def gnewsOkBody : GNewsBody :=
  { articles := some [], totalArticles := some 5 }

/-! ## Theorems -/

/-- Claim C1: whenever the request reaches the fan-out (text resolved, length
at least 50) and the prediction call rejected (failed or timed out), the
analyze handler answers with the 503 `UpstreamUnavailable` error and no
partial result, whatever the sentiment and explanation outcomes
(`deps` is arbitrary apart from its prediction component). -/
theorem analyze_prediction_rejected_fails (req : AnalyzeRequest)
    (deps : AnalyzeDeps) (nowIso : String) (t : String)
    (hres : resolveText req deps = .ok t) (hlen : 50 ≤ t.length)
    (hpred : deps.predictionOutcome = .rejected) :
    (analyze req deps nowIso).response = .error .upstreamUnavailable := by
  unfold analyze
  rw [hres]
  simp only [hpred, Nat.not_lt.mpr hlen, if_false]

/-- Closed instantiation of `analyze_prediction_rejected_fails`. -/
theorem analyze_prediction_rejected_fails_inst :
    (analyze sampleReq predRejectedDeps "2024-01-01T00:00:00Z").response
      = .error .upstreamUnavailable :=
  analyze_prediction_rejected_fails sampleReq predRejectedDeps
    "2024-01-01T00:00:00Z" sampleText rfl (by decide) rfl

/-- Claim C6: a resolved text of fewer than 50 characters is rejected with
the `ValidationError` response, and none of the prediction, sentiment or
explanation collaborator calls is issued. -/
theorem analyze_short_text_rejected (req : AnalyzeRequest)
    (deps : AnalyzeDeps) (nowIso : String) (t : String)
    (hres : resolveText req deps = .ok t) (hlen : t.length < 50) :
    (analyze req deps nowIso).response = .error .validationError ∧
    (analyze req deps nowIso).calls.count CallTag.predictionCall = 0 ∧
    (analyze req deps nowIso).calls.count CallTag.sentimentCall = 0 ∧
    (analyze req deps nowIso).calls.count CallTag.explanationCall = 0 := by
  unfold analyze
  rw [hres]
  cases hurl : req.is_url <;> simp [hlen, hurl, List.count_cons]

/-- Closed instantiation of `analyze_short_text_rejected`. -/
theorem analyze_short_text_rejected_inst :
    (analyze shortReq allOkDeps "2024-01-01T00:00:00Z").response
      = .error .validationError :=
  (analyze_short_text_rejected shortReq allOkDeps "2024-01-01T00:00:00Z"
    shortText rfl (by decide)).1

/-- Claim C3: when the prediction call fulfilled, a rejected (failed or
timed-out) sentiment call is replaced by `{label: "neutral", score: 0.5}`
and a rejected explanation call by `{keywords: [], importance_scores: []}`,
and the analyze handler still answers with a successful result. -/
theorem analyze_secondary_fallbacks (req : AnalyzeRequest)
    (deps : AnalyzeDeps) (nowIso : String) (t : String) (pdata : PredictionBody)
    (hres : resolveText req deps = .ok t) (hlen : 50 ≤ t.length)
    (hpred : deps.predictionOutcome = .fulfilled pdata) :
    ∃ r, (analyze req deps nowIso).response = .ok r ∧
      (deps.sentimentOutcome = .rejected →
        r.sentiment = { label := "neutral", score := 1 / 2 }) ∧
      (deps.explanationOutcome = .rejected →
        r.explanation = { keywords := [], importance_scores := [] }) := by
  refine ⟨assembleResult pdata deps t nowIso, ?_, ?_, ?_⟩
  · unfold analyze
    rw [hres]
    simp [Nat.not_lt.mpr hlen, hpred]
  · intro hs
    simp [assembleResult, hs]
  · intro he
    simp [assembleResult, he]

/-- Closed instantiation of `analyze_secondary_fallbacks`. -/
theorem analyze_secondary_fallbacks_inst :
    ∃ r, (analyze sampleReq degradedDeps "2024-01-01T00:00:00Z").response = .ok r ∧
      (degradedDeps.sentimentOutcome = .rejected →
        r.sentiment = { label := "neutral", score := 1 / 2 }) ∧
      (degradedDeps.explanationOutcome = .rejected →
        r.explanation = { keywords := [], importance_scores := [] }) :=
  analyze_secondary_fallbacks sampleReq degradedDeps "2024-01-01T00:00:00Z"
    sampleText okPredBody rfl (by decide) rfl

/-- Claim C9: the fall-backs also apply when the sentiment or explanation
call fulfilled but its body is falsy or lacks the expected field, and the
overall request still succeeds. -/
theorem analyze_fulfilled_missing_fallbacks (req : AnalyzeRequest)
    (deps : AnalyzeDeps) (nowIso : String) (t : String) (pdata : PredictionBody)
    (hres : resolveText req deps = .ok t) (hlen : 50 ≤ t.length)
    (hpred : deps.predictionOutcome = .fulfilled pdata) :
    ∃ r, (analyze req deps nowIso).response = .ok r ∧
      (∀ d, deps.sentimentOutcome = .fulfilled d → d = none ∨ d = some none →
        r.sentiment = { label := "neutral", score := 1 / 2 }) ∧
      (∀ d, deps.explanationOutcome = .fulfilled d → d = none ∨ d = some none →
        r.explanation = { keywords := [], importance_scores := [] }) := by
  refine ⟨assembleResult pdata deps t nowIso, ?_, ?_, ?_⟩
  · unfold analyze
    rw [hres]
    simp [Nat.not_lt.mpr hlen, hpred]
  · intro d hd hcase
    rcases hcase with rfl | rfl <;> simp [assembleResult, hd]
  · intro d hd hcase
    rcases hcase with rfl | rfl <;> simp [assembleResult, hd]

/-- Closed instantiation of `analyze_fulfilled_missing_fallbacks`. -/
theorem analyze_fulfilled_missing_fallbacks_inst :
    ∃ r, (analyze sampleReq fulfilledEmptyDeps "2024-01-01T00:00:00Z").response = .ok r ∧
      (∀ d, fulfilledEmptyDeps.sentimentOutcome = .fulfilled d →
        d = none ∨ d = some none →
        r.sentiment = { label := "neutral", score := 1 / 2 }) ∧
      (∀ d, fulfilledEmptyDeps.explanationOutcome = .fulfilled d →
        d = none ∨ d = some none →
        r.explanation = { keywords := [], importance_scores := [] }) :=
  analyze_fulfilled_missing_fallbacks sampleReq fulfilledEmptyDeps
    "2024-01-01T00:00:00Z" sampleText okPredBody rfl (by decide) rfl

/-- Claim C7: for a URL request (with a non-empty input), the extraction
collaborator is called exactly once, and the handler aborts with the
extraction error when the call rejected as well as when it fulfilled with a
falsy body, a missing `text` field, or an empty extracted text. -/
theorem analyze_url_extraction_once (req : AnalyzeRequest) (deps : AnalyzeDeps)
    (nowIso : String) (hurl : req.is_url = true) (htext : req.text ≠ "") :
    (analyze req deps nowIso).calls.count CallTag.extraction = 1 ∧
    (deps.extractOutcome = .rejected →
      (analyze req deps nowIso).response = .error .extractionError) ∧
    (∀ d, deps.extractOutcome = .fulfilled d →
      d = none ∨ d = some none ∨ d = some (some "") →
      (analyze req deps nowIso).response = .error .extractionError) := by
  obtain ⟨ext, pred, sent, expl⟩ := deps
  refine ⟨?_, ?_, ?_⟩
  · cases ext with
    | rejected => simp [analyze, resolveText, htext, hurl, errCalls]
    | fulfilled d =>
      rcases d with _ | (_ | t)
      · simp [analyze, resolveText, htext, hurl, errCalls]
      · simp [analyze, resolveText, htext, hurl, errCalls]
      · by_cases ht : t = ""
        · simp [analyze, resolveText, htext, hurl, errCalls, ht]
        · simp only [analyze, resolveText, if_neg htext, hurl, if_true, ht,
            if_false]
          split
          · rfl
          · cases pred <;> rfl
  · intro hext
    cases hext
    simp [analyze, resolveText, htext, hurl, errCalls]
  · intro d hext hcase
    cases hext
    rcases hcase with rfl | rfl | rfl <;>
      simp [analyze, resolveText, htext, hurl, errCalls]

/-- Closed instantiation of `analyze_url_extraction_once`. -/
theorem analyze_url_extraction_once_inst :
    (analyze urlReq predRejectedDeps "2024-01-01T00:00:00Z").calls.count
        CallTag.extraction = 1 ∧
    (analyze urlReq predRejectedDeps "2024-01-01T00:00:00Z").response
      = .error .extractionError := by
  have h := analyze_url_extraction_once urlReq predRejectedDeps
    "2024-01-01T00:00:00Z" rfl (by decide)
  exact ⟨h.1, h.2.1 rfl⟩

set_option maxRecDepth 8192 in
/-- Claim C5 fails on the code as stated: a fulfilled prediction response
whose body lacks the `prediction` field and carries `confidence` 2 yields a
successful result whose `prediction` is `"unknown"` — neither `"real"` nor
`"fake"` — and whose `confidence` is 2, outside `[0, 1]` (the handler
passes both upstream fields through unvalidated). -/
theorem analysis_result_shape_cex :
    ∃ r, (analyze sampleReq malformedPredDeps "2024-01-01T00:00:00Z").response
        = .ok r ∧
      r.prediction ≠ "real" ∧ r.prediction ≠ "fake" ∧
      ¬ (0 ≤ r.confidence ∧ r.confidence ≤ 1) := by
  refine ⟨assembleResult { prediction := none, confidence := some 2 }
    malformedPredDeps sampleText "2024-01-01T00:00:00Z", rfl, by decide,
    by decide, by decide⟩

/-- Claim C5 (amended): every successful result stores `article_text` equal
to the first 2000 characters of the resolved text, unconditionally.
`prediction` and `confidence` are passed through from the prediction
response unvalidated (a missing or empty `prediction` becomes `"unknown"`,
a missing or zero `confidence` becomes 0.5), so the result's `prediction`
is `"real"` or `"fake"` whenever the upstream field is, and the result's
`confidence` lies in `[0, 1]` whenever every upstream-supplied value does;
for arbitrary upstream bodies neither range is guaranteed. -/
theorem analysis_result_shape_amended (req : AnalyzeRequest)
    (deps : AnalyzeDeps) (nowIso : String) (t : String)
    (hres : resolveText req deps = .ok t) :
    ∀ r, (analyze req deps nowIso).response = .ok r →
      r.article_text = t.take 2000 ∧
      (∀ pdata, deps.predictionOutcome = .fulfilled pdata →
        ((pdata.prediction = some "real" ∨ pdata.prediction = some "fake") →
          r.prediction = "real" ∨ r.prediction = "fake") ∧
        ((∀ c, pdata.confidence = some c → 0 ≤ c ∧ c ≤ 1) →
          0 ≤ r.confidence ∧ r.confidence ≤ 1)) := by
  intro r hr
  by_cases hlen : t.length < 50
  · have hv : (analyze req deps nowIso).response = .error .validationError := by
      unfold analyze
      rw [hres]
      simp [hlen]
    rw [hv] at hr
    cases hr
  · rcases hpred : deps.predictionOutcome with pdata | _
    · have hok : (analyze req deps nowIso).response
          = .ok (assembleResult pdata deps t nowIso) := by
        unfold analyze
        rw [hres]
        simp [hlen, hpred]
      rw [hok] at hr
      have hr2 := Except.ok.inj hr
      subst hr2
      refine ⟨by simp [assembleResult], ?_⟩
      intro pdata' hp'
      have hpp : pdata' = pdata :=
        (Settled.fulfilled.inj hp').symm
      subst hpp
      constructor
      · intro hp
        rcases hp with hp | hp <;> simp [assembleResult, jsOrString, hp]
      · intro hc
        rcases hcon : pdata'.confidence with _ | c
        · norm_num [assembleResult, jsOrRat, hcon]
        · rcases hc c hcon with ⟨h0, h1⟩
          by_cases hz : c = 0
          · subst hz
            norm_num [assembleResult, jsOrRat, hcon]
          · simp [assembleResult, jsOrRat, hcon, hz]
            exact ⟨h0, h1⟩
    · have hu : (analyze req deps nowIso).response
          = .error .upstreamUnavailable := by
        unfold analyze
        rw [hres]
        simp [hlen, hpred]
      rw [hu] at hr
      cases hr

set_option maxRecDepth 8192 in
/-- Closed instantiation of `analysis_result_shape_amended`. -/
theorem analysis_result_shape_amended_inst :
    sampleResult.article_text = sampleText.take 2000 ∧
    (sampleResult.prediction = "real" ∨ sampleResult.prediction = "fake") ∧
    (0 ≤ sampleResult.confidence ∧ sampleResult.confidence ≤ 1) := by
  have h := analysis_result_shape_amended sampleReq allOkDeps
    "2024-01-01T00:00:00Z" sampleText rfl sampleResult rfl
  have h2 := h.2 okPredBody rfl
  exact ⟨h.1, h2.1 (Or.inl rfl), h2.2 (by
    intro c hcc
    cases hcc
    constructor <;> norm_num)⟩

/-! ### Rate-limiter helper lemmas -/

/-- A successful consumption: same day, quota strictly below the limit,
pacing gap at least 1000 ms. -/
theorem checkAndConsume_success (limit today now : Nat) (st : RLState)
    (hday : st.lastResetDate = today) (hdq : st.dailyRequests < limit)
    (hpace : 1000 ≤ now - st.lastRequestTime) :
    checkAndConsume limit today now st =
      ({ lastRequestTime := now, dailyRequests := st.dailyRequests + 1,
         lastResetDate := today }, none) := by
  simp only [checkAndConsume, checkRateLimit, hday, ne_eq, eq_self_iff_true,
    not_true, if_false]
  rw [if_neg (by omega), if_neg (by omega)]
  simp [hday]

/-- A same-day consumption attempt at an exhausted quota fails with the
daily-quota error and leaves the state unchanged. -/
theorem checkAndConsume_quota_fail (limit today now : Nat) (st : RLState)
    (hday : st.lastResetDate = today) (hdq : limit ≤ st.dailyRequests) :
    checkAndConsume limit today now st = (st, some .dailyQuotaExceeded) := by
  simp only [checkAndConsume, checkRateLimit, hday, ne_eq, eq_self_iff_true,
    not_true, if_false]
  rw [if_pos (by omega)]

/-- A same-day consumption attempt within 1000 ms of the last request fails
with the pacing error and leaves the state unchanged. -/
theorem checkAndConsume_pacing_fail (limit today now : Nat) (st : RLState)
    (hday : st.lastResetDate = today) (hdq : st.dailyRequests < limit)
    (hpace : now - st.lastRequestTime < 1000) :
    checkAndConsume limit today now st = (st, some .tooFrequent) := by
  simp only [checkAndConsume, checkRateLimit, hday, ne_eq, eq_self_iff_true,
    not_true, if_false]
  rw [if_neg (by omega), if_pos hpace]

/-- On a rollover call, the gates behave exactly as on the reset state. -/
theorem checkRateLimit_reset (limit today now : Nat) (st : RLState)
    (hd : st.lastResetDate ≠ today) :
    checkRateLimit limit today now st =
      checkRateLimit limit today now
        { st with dailyRequests := 0, lastResetDate := today } := by
  have h2 : ¬ ({ st with dailyRequests := 0, lastResetDate := today }
      : RLState).lastResetDate ≠ today := by simp
  simp only [checkRateLimit]
  rw [if_pos hd, if_neg h2]

/-- On a rollover call, the whole consumption step behaves exactly as on
the reset state. -/
theorem checkAndConsume_reset (limit today now : Nat) (st : RLState)
    (hd : st.lastResetDate ≠ today) :
    checkAndConsume limit today now st =
      checkAndConsume limit today now
        { st with dailyRequests := 0, lastResetDate := today } := by
  unfold checkAndConsume
  rw [checkRateLimit_reset limit today now st hd]

/-- On a same-day call, the rate-limit check does not modify the state. -/
theorem checkRateLimit_fst_sameday (limit today now : Nat) (st : RLState)
    (hday : st.lastResetDate = today) :
    (checkRateLimit limit today now st).1 = st := by
  simp only [checkRateLimit, hday, ne_eq, eq_self_iff_true, not_true, if_false]
  split
  · rfl
  · split <;> rfl

/-- The consumption step never pushes the daily counter past the limit
(same-day case). -/
theorem checkAndConsume_daily_le_sameday (limit today now : Nat) (st : RLState)
    (hday : st.lastResetDate = today) (h : st.dailyRequests ≤ limit) :
    (checkAndConsume limit today now st).1.dailyRequests ≤ limit := by
  by_cases hq : limit ≤ st.dailyRequests
  · rw [checkAndConsume_quota_fail limit today now st hday hq]
    exact h
  · by_cases hp : now - st.lastRequestTime < 1000
    · rw [checkAndConsume_pacing_fail limit today now st hday (by omega) hp]
      exact h
    · rw [checkAndConsume_success limit today now st hday (by omega) (by omega)]
      show st.dailyRequests + 1 ≤ limit
      omega

/-- The consumption step never pushes the daily counter past the limit. -/
theorem checkAndConsume_daily_le (limit today now : Nat) (st : RLState)
    (h : st.dailyRequests ≤ limit) :
    (checkAndConsume limit today now st).1.dailyRequests ≤ limit := by
  by_cases hd : st.lastResetDate = today
  · exact checkAndConsume_daily_le_sameday limit today now st hd h
  · rw [checkAndConsume_reset limit today now st hd]
    exact checkAndConsume_daily_le_sameday limit today now _ (by simp)
      (by simp)

/-- Claim C8: the daily counter resets lazily.  On a call whose day differs
from `lastResetDate`, the state is reset (counter 0, day stamped) before
the gates are evaluated — `checkRateLimit` behaves exactly as on the reset
state, and the returned state carries today's stamp.  On a same-day call no
reset happens: the returned state is the input state.  (The embedding has
no other transition on `RLState`, matching the absence of any timer: a day
without calls leaves the state untouched.) -/
theorem checkRateLimit_lazy_reset (limit today now : Nat) (st : RLState) :
    (st.lastResetDate ≠ today →
      checkRateLimit limit today now st =
        checkRateLimit limit today now
          { st with dailyRequests := 0, lastResetDate := today } ∧
      (checkRateLimit limit today now st).1.lastResetDate = today) ∧
    (st.lastResetDate = today → (checkRateLimit limit today now st).1 = st) := by
  constructor
  · intro h
    refine ⟨checkRateLimit_reset limit today now st h, ?_⟩
    rw [checkRateLimit_reset limit today now st h,
      checkRateLimit_fst_sameday limit today now _ (by simp)]
  · intro h
    exact checkRateLimit_fst_sameday limit today now st h

/-- Closed instantiation of `checkRateLimit_lazy_reset`: a call on day 4
with state stamped day 3 evaluates the gates on the reset state and stamps
day 4. -/
theorem checkRateLimit_lazy_reset_inst :
    checkRateLimit 100 4 5000
        { lastRequestTime := 500, dailyRequests := 7, lastResetDate := 3 } =
      checkRateLimit 100 4 5000
        { lastRequestTime := 500, dailyRequests := 0, lastResetDate := 4 } ∧
    (checkRateLimit 100 4 5000
        { lastRequestTime := 500, dailyRequests := 7, lastResetDate := 3 }).1.lastResetDate
      = 4 :=
  (checkRateLimit_lazy_reset 100 4 5000
    { lastRequestTime := 500, dailyRequests := 7, lastResetDate := 3 }).1
    (by decide)

/-- For a schedule with gaps of at least 1000 ms (and a first call at least
1000 ms after instant 0), every call is paced far enough from the previous
state's `lastRequestTime`. -/
theorem times_pace (times : Nat → Nat) (h0 : 1000 ≤ times 0)
    (hgap : ∀ i, times i + 1000 ≤ times (i + 1)) (k : Nat) :
    1000 ≤ times k - (if k = 0 then 0 else times (k - 1)) := by
  cases k with
  | zero => simpa using h0
  | succ m =>
    have h := hgap m
    simp only [Nat.succ_ne_zero, if_false, Nat.succ_sub_one]
    omega

/-- After `k ≤ limit` adequately spaced consumption attempts on day `d`
starting from the fresh state, the limiter holds exactly `k` consumed
requests stamped with day `d` and the time of the last attempt. -/
theorem runConsume_spec (limit d : Nat) (times : Nat → Nat)
    (h0 : 1000 ≤ times 0) (hgap : ∀ i, times i + 1000 ≤ times (i + 1)) :
    ∀ k, k ≤ limit →
      runConsume limit d times k =
        { lastRequestTime := if k = 0 then 0 else times (k - 1),
          dailyRequests := k, lastResetDate := d } := by
  intro k
  induction k with
  | zero =>
    intro _
    simp [runConsume, freshState]
  | succ n ih =>
    intro hle
    have hn := ih (Nat.le_of_succ_le hle)
    show (checkAndConsume limit d (times n) (runConsume limit d times n)).1 = _
    rw [hn, checkAndConsume_success limit d (times n) _ rfl
      (by show n < limit; omega) (times_pace times h0 hgap n)]
    simp

/-- Claim C2: starting a fresh calendar day `d`, for a schedule of attempts
spaced at least 1000 ms apart, the first `limit` consumption attempts all
succeed and the `(limit+1)`-th fails with the daily-quota error; moreover,
after any same-day successful consumption at instant `now`, a further
attempt less than 1000 ms later fails with the pacing error even though
daily quota remains. -/
theorem rate_limiter_daily_and_pacing (limit d : Nat) (times : Nat → Nat)
    (h0 : 1000 ≤ times 0) (hgap : ∀ i, times i + 1000 ≤ times (i + 1)) :
    (∀ k, k < limit → consumeResult limit d times k = none) ∧
    consumeResult limit d times limit = some .dailyQuotaExceeded ∧
    (∀ st now now', st.lastResetDate = d → st.dailyRequests + 1 < limit →
      (checkAndConsume limit d now st).2 = none → now' - now < 1000 →
      (checkAndConsume limit d now'
        ((checkAndConsume limit d now st).1)).2 = some .tooFrequent) := by
  refine ⟨?_, ?_, ?_⟩
  · intro k hk
    unfold consumeResult
    rw [runConsume_spec limit d times h0 hgap k (Nat.le_of_lt hk),
      checkAndConsume_success limit d (times k) _ rfl hk
        (times_pace times h0 hgap k)]
  · unfold consumeResult
    rw [runConsume_spec limit d times h0 hgap limit le_rfl,
      checkAndConsume_quota_fail limit d (times limit) _ rfl le_rfl]
  · intro st now now' hday hdq hsucc hlt
    by_cases hp : now - st.lastRequestTime < 1000
    · rw [checkAndConsume_pacing_fail limit d now st hday (by omega) hp]
        at hsucc
      cases hsucc
    · rw [checkAndConsume_success limit d now st hday (by omega) (by omega)]
      rw [checkAndConsume_pacing_fail limit d now' _ rfl (by
        show st.dailyRequests + 1 < limit
        omega) (by
        show now' - now < 1000
        omega)]

/-- Closed instantiation of `rate_limiter_daily_and_pacing` with limit 2 and
calls at 1000, 2000, 3000 ms. -/
theorem rate_limiter_daily_and_pacing_inst :
    consumeResult 2 0 (fun i => 1000 * (i + 1)) 0 = none ∧
    consumeResult 2 0 (fun i => 1000 * (i + 1)) 2
      = some RateLimitError.dailyQuotaExceeded ∧
    (checkAndConsume 2 0 5000
        ((checkAndConsume 2 0 4500
          { lastRequestTime := 2000, dailyRequests := 0,
            lastResetDate := 0 }).1)).2
      = some RateLimitError.tooFrequent := by
  have h := rate_limiter_daily_and_pacing 2 0 (fun i => 1000 * (i + 1))
    (by norm_num)
    (by
      intro i
      show 1000 * (i + 1) + 1000 ≤ 1000 * (i + 1 + 1)
      omega)
  exact ⟨h.1 0 (by norm_num), h.2.1,
    h.2.2 { lastRequestTime := 2000, dailyRequests := 0, lastResetDate := 0 }
      4500 5000 rfl (by norm_num) (by decide) (by norm_num)⟩

/-- A value read back from the cache before expiry is the stored one. -/
theorem cacheGet_some (now : Nat) (slot : Option CacheEntry) (v : FeedResult)
    (h : cacheGet now slot = some v) : ∃ e, slot = some e ∧ e.value = v := by
  rcases slot with _ | e
  · simp [cacheGet] at h
  · refine ⟨e, rfl, ?_⟩
    simp only [cacheGet] at h
    split at h
    · exact Option.some.inj h
    · cases h

/-- On a cache miss the trending handler's response, upstream usage and
limiter state are a function of the limiter state alone, not of the stale
slot contents. -/
theorem fetchTrending_cache_irrelevant (limit today now : Nat)
    (nowIso : String) (key : Bool) (up : GNewsOutcome)
    (st1 st2 : TrendingState) (hrl : st1.rl = st2.rl)
    (h1 : cacheGet now st1.cache = none)
    (h2 : cacheGet now st2.cache = none) :
    (fetchTrending limit today now nowIso key up st1).response =
      (fetchTrending limit today now nowIso key up st2).response ∧
    (fetchTrending limit today now nowIso key up st1).upstreamCalled =
      (fetchTrending limit today now nowIso key up st2).upstreamCalled ∧
    (fetchTrending limit today now nowIso key up st1).state.rl =
      (fetchTrending limit today now nowIso key up st2).state.rl := by
  unfold fetchTrending
  rw [h1, h2, hrl]
  cases key
  · exact ⟨rfl, rfl, hrl⟩
  · rcases hcc : checkAndConsume limit today now st2.rl with ⟨rl1, err⟩
    rcases err with _ | e2
    · rcases up with data | f
      · rcases data with _ | body
        · exact ⟨rfl, rfl, rfl⟩
        · obtain ⟨arts, tot⟩ := body
          rcases arts with _ | l <;> exact ⟨rfl, rfl, rfl⟩
      · cases f <;> exact ⟨rfl, rfl, rfl⟩
    · exact ⟨rfl, rfl, rfl⟩

/-- Claim C4: a `set` followed by a `get` strictly inside the 1800 s TTL
returns the cached value; on such a hit the trending handler returns the
cached result at once, with no upstream call and the limiter state
untouched; once the TTL has elapsed the `get` is empty and the handler
behaves exactly as on an empty cache, going through the rate limiter to a
fresh upstream fetch. -/
theorem trending_cache_ttl :
    (∀ tSet tGet v, tGet < tSet + 1800 * 1000 →
      cacheGet tGet (cacheSet tSet 1800 v) = some v) ∧
    (∀ limit today now nowIso key up st v, cacheGet now st.cache = some v →
      fetchTrending limit today now nowIso key up st =
        { state := st, response := .ok v, upstreamCalled := false }) ∧
    (∀ now e, e.expiresAt ≤ now → cacheGet now (some e) = none) ∧
    (∀ limit today now nowIso key up st e, st.cache = some e →
      e.expiresAt ≤ now →
      (fetchTrending limit today now nowIso key up st).response =
        (fetchTrending limit today now nowIso key up
          { st with cache := none }).response ∧
      (fetchTrending limit today now nowIso key up st).upstreamCalled =
        (fetchTrending limit today now nowIso key up
          { st with cache := none }).upstreamCalled ∧
      (fetchTrending limit today now nowIso key up st).state.rl =
        (fetchTrending limit today now nowIso key up
          { st with cache := none }).state.rl) := by
  refine ⟨?_, ?_, ?_, ?_⟩
  · intro tSet tGet v h
    simp only [cacheSet, cacheGet]
    rw [if_pos (by omega)]
  · intro limit today now nowIso key up st v h
    unfold fetchTrending
    rw [h]
  · intro now e h
    simp only [cacheGet]
    rw [if_neg (by omega)]
  · intro limit today now nowIso key up st e hsome hexp
    refine fetchTrending_cache_irrelevant limit today now nowIso key up st
      { st with cache := none } rfl ?_ rfl
    rw [hsome]
    simp only [cacheGet]
    rw [if_neg (by omega)]

/-- Closed instantiation of `trending_cache_ttl`. -/
theorem trending_cache_ttl_inst :
    cacheGet 5 (cacheSet 0 1800 sampleFeed) = some sampleFeed ∧
    fetchTrending 100 0 5 "t" true (.rejected .transport) cachedState =
      { state := cachedState, response := .ok sampleFeed,
        upstreamCalled := false } :=
  ⟨trending_cache_ttl.1 0 5 sampleFeed (by norm_num),
    trending_cache_ttl.2.1 100 0 5 "t" true (.rejected .transport)
      cachedState sampleFeed rfl⟩

/-- Claim C10: the daily counter never exceeds the limit across a handler
call (it is incremented only after the strict check), and — provided every
cached value was produced by the handler, hence carries a non-negative
`remainingRequests` — every successful trending response has a non-negative
`remainingRequests`, and the property is preserved for the new cache
contents. -/
theorem fetchTrending_quota_invariant (limit today now : Nat)
    (nowIso : String) (key : Bool) (up : GNewsOutcome) (st : TrendingState)
    (hdaily : st.rl.dailyRequests ≤ limit)
    (hcache : ∀ e, st.cache = some e → 0 ≤ e.value.remainingRequests) :
    (fetchTrending limit today now nowIso key up st).state.rl.dailyRequests
        ≤ limit ∧
    (∀ r, (fetchTrending limit today now nowIso key up st).response = .ok r →
      0 ≤ r.remainingRequests) ∧
    (∀ e, (fetchTrending limit today now nowIso key up st).state.cache
        = some e → 0 ≤ e.value.remainingRequests) := by
  unfold fetchTrending
  cases hc : cacheGet now st.cache with
  | some v =>
    refine ⟨hdaily, ?_, ?_⟩
    · intro r hr
      have hr2 : (Except.ok v : Except FeedError FeedResult) = .ok r := hr
      obtain ⟨e, he, hev⟩ := cacheGet_some now st.cache v hc
      rw [← Except.ok.inj hr2, ← hev]
      exact hcache e he
    · intro e he
      exact hcache e he
  | none =>
    cases key
    · refine ⟨hdaily, ?_, ?_⟩
      · intro r hr
        have hr2 : (Except.error FeedError.apiKeyMissing
            : Except FeedError FeedResult) = .ok r := hr
        cases hr2
      · intro e he
        exact hcache e he
    · rcases hcc : checkAndConsume limit today now st.rl with ⟨rl1, err⟩
      have hrl1 : rl1.dailyRequests ≤ limit := by
        have h := checkAndConsume_daily_le limit today now st.rl hdaily
        rw [hcc] at h
        exact h
      rcases err with _ | e2
      · rcases up with data | f
        · rcases data with _ | body
          · refine ⟨hrl1, ?_, ?_⟩
            · intro r hr
              have hr2 : (Except.error FeedError.fetchFailed
                  : Except FeedError FeedResult) = .ok r := hr
              cases hr2
            · intro e he
              exact hcache e he
          · obtain ⟨arts, tot⟩ := body
            rcases arts with _ | l
            · refine ⟨hrl1, ?_, ?_⟩
              · intro r hr
                have hr2 : (Except.error FeedError.fetchFailed
                    : Except FeedError FeedResult) = .ok r := hr
                cases hr2
              · intro e he
                exact hcache e he
            · refine ⟨hrl1, ?_, ?_⟩
              · intro r hr
                rw [← Except.ok.inj hr]
                exact le_max_left 0 _
              · intro e he
                have he2 := Option.some.inj he
                rw [← he2]
                exact le_max_left 0 _
        · cases f
          · refine ⟨hrl1, ?_, ?_⟩
            · intro r hr
              have hr2 : (Except.error FeedError.gnewsRateLimited
                  : Except FeedError FeedResult) = .ok r := hr
              cases hr2
            · intro e he
              exact hcache e he
          · refine ⟨hrl1, ?_, ?_⟩
            · intro r hr
              have hr2 : (Except.error FeedError.invalidApiKey
                  : Except FeedError FeedResult) = .ok r := hr
              cases hr2
            · intro e he
              exact hcache e he
          · refine ⟨hrl1, ?_, ?_⟩
            · intro r hr
              have hr2 : (Except.error FeedError.fetchFailed
                  : Except FeedError FeedResult) = .ok r := hr
              cases hr2
            · intro e he
              exact hcache e he
      · refine ⟨hrl1, ?_, ?_⟩
        · intro r hr
          have hr2 : (Except.error (FeedError.rateLimited e2)
              : Except FeedError FeedResult) = .ok r := hr
          cases hr2
        · intro e he
          exact hcache e he

/-- Closed instantiation of `fetchTrending_quota_invariant`: a successful
fetch from the start state. -/
theorem fetchTrending_quota_invariant_inst :
    (fetchTrending 100 0 5000 "2024-01-01T00:00:00Z" true
        (.fulfilled (some gnewsOkBody)) startTrendingState).state.rl.dailyRequests
      ≤ 100 ∧
    (∀ r, (fetchTrending 100 0 5000 "2024-01-01T00:00:00Z" true
        (.fulfilled (some gnewsOkBody)) startTrendingState).response = .ok r →
      0 ≤ r.remainingRequests) ∧
    (∀ e, (fetchTrending 100 0 5000 "2024-01-01T00:00:00Z" true
        (.fulfilled (some gnewsOkBody)) startTrendingState).state.cache
        = some e → 0 ≤ e.value.remainingRequests) :=
  fetchTrending_quota_invariant 100 0 5000 "2024-01-01T00:00:00Z" true
    (.fulfilled (some gnewsOkBody)) startTrendingState (by decide)
    (fun e he => nomatch he)

end FakeNews
